import Mathlib

/-!
Shallow embedding of the drive-by-wire MPC control node
(`src/ros/src/twist_controller/src/dbw_mpc.h`) and verification of the
specification claims about it.

The embedding models doubles as real numbers.  All definitions below are
translated directly from the C++ source; the sole exceptions are
definitions whose doc comment starts with `Modelled from the spec:` (for
code of the repository that is outside the provided source, namely the
external MPC optimizer) and definitions whose doc comment starts with
`Spec formula:` (restatements of the specification text used to compare
the code against the spec).
-/

/-- Global constant `double latency = 0.1;` from the source. -/
noncomputable def latency : ℝ := 0.1

/-- Global constant `double Lf = 2.67;` from the source. -/
noncomputable def Lf : ℝ := 2.67

/-- Embedding of `polyeval`: the loop `for i in [0, coeffs.size())`
accumulating `result += coeffs[i] * pow(x, i)` starting from `0.0`,
written as a left fold over the index range exactly as the loop runs. -/
noncomputable def polyeval (coeffs : List ℝ) (x : ℝ) : ℝ :=
  (List.range coeffs.length).foldl (fun result i => result + coeffs.getD i 0 * x ^ i) 0

/-- Embedding of the assertion guarding `polyfit`:
`assert(order >= 1 && order <= xvals.size() - 1);`.  The arithmetic is C
`int` arithmetic on small values, faithfully rendered over ℤ (so that
`xvals.size() - 1` is `-1` when the size is `0`).  `true` means the
assertion passes and the least-squares system is solved; `false` means
the process aborts. -/
def polyfitAssertOk (n order : ℤ) : Bool :=
  decide (1 ≤ order) && decide (order ≤ n - 1)

/-- Pose message as read by the node: `pose.pose.position.x`,
`pose.pose.position.y` and `pose.pose.orientation.z` (used as the
heading ψ). -/
structure PoseMsg where
  x : ℝ
  y : ℝ
  oz : ℝ

/-- Fields of the `DbwMpc` class.  A waypoint is reduced to the pair
(`pose.pose.position.x`, `pose.pose.position.y`), the only fields the
node reads; `velocity` is reduced to `twist.linear.x`, the only field
read. -/
structure DbwState where
  waypoint_set : Bool
  velocity_set : Bool
  pose_set : Bool
  enabled : Bool
  waypoints : List (ℝ × ℝ)
  pose : PoseMsg
  velocity : ℝ
  steer_value : ℝ
  throttle_value : ℝ

/-- Embedding of the constructor `DbwMpc() : enabled(false) {}`.  The
constructor initializes only `enabled`; every other member is left
uninitialized (indeterminate in C++), so each such member is a parameter
of this definition: any instantiation of the parameters is a possible
process-start state. -/
def initDbw (w v p : Bool) (wps : List (ℝ × ℝ)) (po : PoseMsg)
    (vel sv tv : ℝ) : DbwState :=
  { waypoint_set := w, velocity_set := v, pose_set := p, enabled := false,
    waypoints := wps, pose := po, velocity := vel,
    steer_value := sv, throttle_value := tv }

/-- Embedding of the callback `onEnabled`: `enabled = isEnabled->data;`. -/
def onEnabled (s : DbwState) (b : Bool) : DbwState :=
  { s with enabled := b }

/-- Embedding of the callback `onWaypoints`:
`waypoints = *newWaypoints; waypoint_set = true;`. -/
def onWaypoints (s : DbwState) (w : List (ℝ × ℝ)) : DbwState :=
  { s with waypoints := w, waypoint_set := true }

/-- Embedding of the callback `onPose`: `pose = *newPose; pose_set = true;`. -/
def onPose (s : DbwState) (p : PoseMsg) : DbwState :=
  { s with pose := p, pose_set := true }

/-- Embedding of the callback `onVelocity`:
`velocity = *newVelocity; velocity_set = true;`. -/
def onVelocity (s : DbwState) (v : ℝ) : DbwState :=
  { s with velocity := v, velocity_set := true }

/-- The readiness guard of the loop body in `run`:
`enabled && velocity_set && waypoint_set && pose_set`. -/
def isActive (s : DbwState) : Bool :=
  s.enabled && s.velocity_set && s.waypoint_set && s.pose_set

/-- Messages published by one pass of the loop body in `run`: at most
one steering, one throttle and one brake command, each carrying its
`pedal_cmd` / `steering_wheel_angle_cmd` payload. -/
structure TickOut where
  steer : Option ℝ
  throttle : Option ℝ
  brake : Option ℝ

/-- Embedding of one iteration of the `while (ros::ok())` loop body of
`DbwMpc::run`: if the readiness guard holds, publish a steering command
carrying `steer_value`, then publish a throttle command carrying
`throttle_value` when `throttle_value > 0` and otherwise a brake command
carrying `throttle_value`; if the guard fails, publish nothing.  The
loop body mutates no member of the class, and it calls neither
`calculate` nor `mpc.Solve` (no call to them appears anywhere in the
translation unit). -/
noncomputable def runTick (s : DbwState) : TickOut :=
  if isActive s then
    { steer := some s.steer_value,
      throttle := if 0 < s.throttle_value then some s.throttle_value else none,
      brake := if 0 < s.throttle_value then none else some s.throttle_value }
  else
    { steer := none, throttle := none, brake := none }

/-- Embedding of the body of the local-frame transformation loop in
`DbwMpc::calculate`: for a global point, with `dx = x - px` and
`dy = y - py`, push `dx * cos(-psi) - dy * sin(-psi)` onto `xs` and
`dx * sin(-psi) + dy * cos(-psi)` onto `ys`.  The two parallel pushes
are rendered as one pair. -/
noncomputable def transformPoint (px py psi : ℝ) (g : ℝ × ℝ) : ℝ × ℝ :=
  let dx := g.1 - px
  let dy := g.2 - py
  (dx * Real.cos (-psi) - dy * Real.sin (-psi),
   dx * Real.sin (-psi) + dy * Real.cos (-psi))

/-- Embedding of the whole transformation loop
`for (i = 0; i < ptsx.size(); i++)` of `DbwMpc::calculate`: every window
point is transformed in order. -/
noncomputable def transformPoints (px py psi : ℝ) (pts : List (ℝ × ℝ)) :
    List (ℝ × ℝ) :=
  pts.map (transformPoint px py psi)

/-- Euclidean distance between two planar points. -/
noncomputable def euclidDist (p q : ℝ × ℝ) : ℝ :=
  Real.sqrt ((p.1 - q.1) ^ 2 + (p.2 - q.2) ^ 2)

/-- The indices read by the waypoint-window loop of `DbwMpc::calculate`:
`for (size_t i = closestWaypointIdx; i < closestWaypointIdx + 3; i++)`.
The loop bound is `closestWaypointIdx + 3` unconditionally; no bound of
the loop mentions `waypoints.waypoints.size()`, and no other bounds
check appears in `calculate`. -/
def windowIdxs (closestWaypointIdx : ℕ) : List ℕ :=
  [closestWaypointIdx, closestWaypointIdx + 1, closestWaypointIdx + 2]

/-- The reads `waypoints.waypoints[i].pose.pose.position.x` performed by
the window loop, as optional values: a `none` entry records a read of an
index at or past the end of the waypoint sequence (an out-of-bounds
`operator[]` access, undefined behavior in the C++ source, performed
unconditionally since the loop has no bounds check). -/
def windowReadsX (wps : List (ℝ × ℝ)) (closestWaypointIdx : ℕ) :
    List (Option ℝ) :=
  (windowIdxs closestWaypointIdx).map (fun i => (wps.get? i).map Prod.fst)

/-- The length literal of the Eigen views in `DbwMpc::calculate`:
`Eigen::Map<Eigen::VectorXd> waypoints_x_eig(ptrx, 6)` (and likewise
for `ptry`): the views handed to `polyfit` claim six entries. -/
def eigenMapLen : ℕ := 6

/-- The polynomial degree passed to the fit in `DbwMpc::calculate`:
`polyfit(waypoints_x_eig, waypoints_y_eig, 3)`. -/
def polyfitOrder : ℕ := 3

/-- The element reads performed through an Eigen view of length
`eigenMapLen` over the buffer `xs` (or `ys`): `polyfit` reads entries
`0, ..., 5` of the view; a `none` records a read past the end of the
underlying buffer (undefined behavior in the C++ source). -/
def eigenMapReads (xs : List ℝ) : List (Option ℝ) :=
  (List.range eigenMapLen).map (fun i => xs.get? i)

/-- Embedding of the latency-compensation block of `DbwMpc::calculate`
(from `double delta = -steer_value;` to `state << px, py, psi, v, cte,
epsi;`), given the cross-track error and heading error just computed,
the stored last command (`steer_value`, `throttle_value`) and the
current speed `v`.  The result is the 6-tuple in the order the state
vector is filled: `(px, py, psi, v, cte, epsi)`. -/
noncomputable def latencyCompensate (steer_value throttle_value cte0 epsi0 v0 : ℝ) :
    ℝ × ℝ × ℝ × ℝ × ℝ × ℝ :=
  let delta := -steer_value
  let psi := delta
  let px := v0 * Real.cos psi * latency
  let py := v0 * Real.sin psi * latency
  let cte := cte0 + v0 * Real.sin epsi0 * latency
  let epsi := epsi0 + v0 * delta * latency / Lf
  let psi2 := psi + v0 * delta * latency / Lf
  let v := v0 + throttle_value * latency
  (px, py, psi2, v, cte, epsi)

/-- Spec formula: the bicycle-model projection of section 4.4 of the
specification, taking the steering angle δ of the last issued command,
the throttle value, the errors and the speed, and producing the
projected 6-tuple in state-vector order: ψ1 = δ, px1 = v·cos(ψ1)·L,
py1 = v·sin(ψ1)·L, ψ2 = ψ1 + v·δ·L/Lf, v1 = v + throttle·L,
cte1 = cte + v·sin(epsi)·L, epsi1 = epsi + v·δ·L/Lf. -/
noncomputable def specBicycleProject (δ throttle cte epsi v : ℝ) :
    ℝ × ℝ × ℝ × ℝ × ℝ × ℝ :=
  let ψ1 := δ
  (v * Real.cos ψ1 * latency,
   v * Real.sin ψ1 * latency,
   ψ1 + v * δ * latency / Lf,
   v + throttle * latency,
   cte + v * Real.sin epsi * latency,
   epsi + v * δ * latency / Lf)

/-- Embedding of the error-estimation lines of `DbwMpc::calculate`:
`double cte = polyeval(coeffs, 0);`. -/
noncomputable def errCte (coeffs : List ℝ) : ℝ := polyeval coeffs 0

/-- Embedding of the error-estimation lines of `DbwMpc::calculate`:
`double epsi = -atan(coeffs[1]);`. -/
noncomputable def errEpsi (coeffs : List ℝ) : ℝ :=
  -Real.arctan (coeffs.getD 1 0)

/-- A left fold that only accumulates additions equals the initial value
plus the sum of the mapped list. -/
lemma foldl_add_eq_sum (f : ℕ → ℝ) (l : List ℕ) : ∀ a : ℝ,
    l.foldl (fun r i => r + f i) a = a + (l.map f).sum := by
  induction l with
  | nil => intro a; simp
  | cons x xs ih =>
      intro a
      simp only [List.foldl_cons, List.map_cons, List.sum_cons, ih, add_assoc]

/-- Summing `c[i] * 0 ^ i` over a nonempty index range leaves only the
constant term. -/
lemma sum_map_range_zero_pow (c : List ℝ) (m : ℕ) :
    ((List.range (m + 1)).map (fun i => c.getD i 0 * (0 : ℝ) ^ i)).sum = c.getD 0 0 := by
  induction m with
  | zero => simp [List.range_succ]
  | succ k ih =>
      rw [List.range_succ, List.map_append, List.sum_append, ih]
      simp

/-- C8: for every coefficient list with at least two entries, the
cross-track error computed by `calculate` (the polynomial evaluated at
`x = 0` via `polyeval`) equals the degree-0 coefficient exactly, and the
heading error equals the negative arctangent of the degree-1
coefficient. -/
theorem C8_error_estimator (coeffs : List ℝ) (h : 2 ≤ coeffs.length) :
    errCte coeffs = coeffs.getD 0 0 ∧
    errEpsi coeffs = -Real.arctan (coeffs.getD 1 0) := by
  refine ⟨?_, rfl⟩
  unfold errCte polyeval
  rw [foldl_add_eq_sum]
  obtain ⟨m, hm⟩ : ∃ m, coeffs.length = m + 1 := ⟨coeffs.length - 1, by omega⟩
  rw [hm, sum_map_range_zero_pow, zero_add]

/-- Witness for C8 at the concrete coefficient list `[2, 3]`. -/
theorem C8_error_estimator_witness :
    errCte [2, 3] = ([2, 3] : List ℝ).getD 0 0 ∧
    errEpsi [2, 3] = -Real.arctan (([2, 3] : List ℝ).getD 1 0) :=
  C8_error_estimator [2, 3] (by simp)

/-- C9: the frame transformation maps each global point by the stated
rotation-and-translation formula, preserves the length of the point
sequence, and preserves Euclidean distances (it is rigid). -/
theorem C9_rigid_transform (px py psi : ℝ) (pts : List (ℝ × ℝ)) :
    (∀ g : ℝ × ℝ, transformPoint px py psi g =
      ((g.1 - px) * Real.cos (-psi) - (g.2 - py) * Real.sin (-psi),
       (g.1 - px) * Real.sin (-psi) + (g.2 - py) * Real.cos (-psi))) ∧
    (transformPoints px py psi pts).length = pts.length ∧
    ∀ p q : ℝ × ℝ,
      euclidDist (transformPoint px py psi p) (transformPoint px py psi q) =
        euclidDist p q := by
  refine ⟨fun g => rfl, by simp [transformPoints], fun p q => ?_⟩
  simp only [euclidDist, transformPoint]
  congr 1
  linear_combination ((p.1 - q.1) ^ 2 + (p.2 - q.2) ^ 2) *
    Real.cos_sq_add_sin_sq (-psi)

/-- C10: each inbound message callback modifies only its own channel
(value and readiness flag) and leaves the other three channels, their
flags, and the stored steering and actuation values unchanged. -/
theorem C10_callback_frame (s : DbwState) (b : Bool) (w : List (ℝ × ℝ))
    (p : PoseMsg) (v : ℝ) :
    ((onEnabled s b).waypoints = s.waypoints ∧
     (onEnabled s b).waypoint_set = s.waypoint_set ∧
     (onEnabled s b).pose = s.pose ∧
     (onEnabled s b).pose_set = s.pose_set ∧
     (onEnabled s b).velocity = s.velocity ∧
     (onEnabled s b).velocity_set = s.velocity_set ∧
     (onEnabled s b).steer_value = s.steer_value ∧
     (onEnabled s b).throttle_value = s.throttle_value) ∧
    ((onWaypoints s w).enabled = s.enabled ∧
     (onWaypoints s w).pose = s.pose ∧
     (onWaypoints s w).pose_set = s.pose_set ∧
     (onWaypoints s w).velocity = s.velocity ∧
     (onWaypoints s w).velocity_set = s.velocity_set ∧
     (onWaypoints s w).steer_value = s.steer_value ∧
     (onWaypoints s w).throttle_value = s.throttle_value) ∧
    ((onPose s p).enabled = s.enabled ∧
     (onPose s p).waypoints = s.waypoints ∧
     (onPose s p).waypoint_set = s.waypoint_set ∧
     (onPose s p).velocity = s.velocity ∧
     (onPose s p).velocity_set = s.velocity_set ∧
     (onPose s p).steer_value = s.steer_value ∧
     (onPose s p).throttle_value = s.throttle_value) ∧
    ((onVelocity s v).enabled = s.enabled ∧
     (onVelocity s v).waypoints = s.waypoints ∧
     (onVelocity s v).waypoint_set = s.waypoint_set ∧
     (onVelocity s v).pose = s.pose ∧
     (onVelocity s v).pose_set = s.pose_set ∧
     (onVelocity s v).steer_value = s.steer_value ∧
     (onVelocity s v).throttle_value = s.throttle_value) :=
  ⟨⟨rfl, rfl, rfl, rfl, rfl, rfl, rfl, rfl⟩,
   ⟨rfl, rfl, rfl, rfl, rfl, rfl, rfl⟩,
   ⟨rfl, rfl, rfl, rfl, rfl, rfl, rfl⟩,
   ⟨rfl, rfl, rfl, rfl, rfl, rfl, rfl⟩⟩

/-- Active state used for the C4 dispatch theorems: all readiness flags
true, stored steering 2 and stored actuation value -1. -/
def brakeState : DbwState :=
  { waypoint_set := true, velocity_set := true, pose_set := true,
    enabled := true, waypoints := [], pose := ⟨0, 0, 0⟩, velocity := 0,
    steer_value := 2, throttle_value := -1 }

/-- C4 counterexample: with stored actuation value -1 the loop body
publishes a brake command carrying the raw value -1, not the magnitude
1, refuting the claim that the brake command carries the absolute
value. -/
theorem C4_brake_magnitude_counterexample :
    (runTick brakeState).brake = some (-1 : ℝ) ∧
    (runTick brakeState).brake ≠ some |(-1 : ℝ)| := by
  have hb : (runTick brakeState).brake = some (-1 : ℝ) := by
    norm_num [runTick, isActive, brakeState]
  refine ⟨hb, ?_⟩
  rw [hb]
  norm_num

/-- C4 as amended: while Active the loop body publishes a steering
command carrying the stored steering value, and exactly one of throttle
or brake: a throttle command carrying the actuation value when it is
strictly positive, otherwise a brake command carrying the raw signed
actuation value (not its magnitude). -/
theorem C4_dispatch_amended (s : DbwState) (h : isActive s = true) :
    (runTick s).steer = some s.steer_value ∧
    (0 < s.throttle_value →
      (runTick s).throttle = some s.throttle_value ∧ (runTick s).brake = none) ∧
    (¬ 0 < s.throttle_value →
      (runTick s).throttle = none ∧ (runTick s).brake = some s.throttle_value) := by
  refine ⟨by simp [runTick, h], fun hpos => ?_, fun hneg => ?_⟩
  · constructor <;> simp [runTick, h, hpos]
  · constructor <;> simp [runTick, h, hneg]

/-- Witness for C4 as amended, at `brakeState`. -/
theorem C4_dispatch_amended_witness :
    (runTick brakeState).steer = some brakeState.steer_value ∧
    (0 < brakeState.throttle_value →
      (runTick brakeState).throttle = some brakeState.throttle_value ∧
      (runTick brakeState).brake = none) ∧
    (¬ 0 < brakeState.throttle_value →
      (runTick brakeState).throttle = none ∧
      (runTick brakeState).brake = some brakeState.throttle_value) :=
  C4_dispatch_amended brakeState (by rfl)

/-- C6 counterexample: at stored steering 1, throttle 0, errors 0 and
speed 0, the code projects heading -1 (it uses delta equal to the
negated stored steering) while the claim formula with the command
steering angle as delta projects heading 1. -/
theorem C6_delta_sign_counterexample :
    latencyCompensate 1 0 0 0 0 ≠ specBicycleProject 1 0 0 0 0 := by
  intro h
  have h3 := congrArg (fun t : ℝ × ℝ × ℝ × ℝ × ℝ × ℝ => t.2.2.1) h
  simp only [latencyCompensate, specBicycleProject] at h3
  norm_num at h3

/-- C6 as amended: the latency compensator computes exactly the
bicycle-model projection of the specification, but with delta equal to
the negation of the last issued steering value; in particular with
stored steering 0 and throttle 0 the heading stays 0, the speed is
unchanged, the projected lateral offset is 0 and the projected forward
offset is speed times the latency window. -/
theorem C6_latency_amended :
    (∀ sv tv cte epsi v,
        latencyCompensate sv tv cte epsi v = specBicycleProject (-sv) tv cte epsi v) ∧
    (∀ cte epsi v,
        latencyCompensate 0 0 cte epsi v =
          (v * latency, 0, 0, v, cte + v * Real.sin epsi * latency, epsi)) := by
  constructor
  · intro sv tv cte epsi v; rfl
  · intro cte epsi v
    simp [latencyCompensate]

/-- C7 counterexample: with sample count 4 and degree 3 the claim
demands rejection (3 ≥ 4 - 1), yet the polyfit assertion passes and the
system is solved. -/
theorem C7_degree_counterexample :
    polyfitAssertOk 4 3 = true ∧ (3 : ℤ) ≥ 4 - 1 := by decide

/-- C7 as amended: the polyfit assertion rejects an input exactly when
the degree is below 1 or at least the sample count; in particular
degree = n - 1 (exact interpolation) is accepted, so the rejected
region is degree ≥ n, not degree ≥ n - 1. -/
theorem C7_polyfit_precondition_amended (n order : ℤ) :
    polyfitAssertOk n order = false ↔ (order < 1 ∨ n ≤ order) := by
  simp [polyfitAssertOk]
  omega

/-- C1: while Active, one pass of the loop body of `run` publishes as
the steering command exactly the stored pre-tick `steer_value` (and its
output is a function of the pre-tick state only): no pass of the loop
body invokes `calculate` or the optimizer, so no published value is
freshly computed during the tick. -/
theorem C1_tick_publishes_stored (s : DbwState) (h : isActive s = true) :
    (runTick s).steer = some s.steer_value := by
  simp [runTick, h]

/-- Start-like Active state used for the C1 witness: stored steering and
actuation values 0, as nothing ever wrote them. -/
def staleState : DbwState :=
  { waypoint_set := true, velocity_set := true, pose_set := true,
    enabled := true, waypoints := [], pose := ⟨0, 0, 0⟩, velocity := 0,
    steer_value := 0, throttle_value := 0 }

/-- Witness for C1 at `staleState`. -/
theorem C1_tick_publishes_stored_witness :
    (runTick staleState).steer = some staleState.steer_value :=
  C1_tick_publishes_stored staleState (by rfl)

/-- C2: whenever the nearest-waypoint index is in range but the index
plus the window size 3 exceeds the waypoint count, the window loop of
`calculate` performs a read past the end of the waypoint sequence (a
`none` entry among its reads); the loop contains no bounds check, so the
tick does not fail with a precondition error. -/
theorem C2_window_reads_past_end (wps : List (ℝ × ℝ)) (closestWaypointIdx : ℕ)
    (hlt : closestWaypointIdx < wps.length)
    (hover : wps.length < closestWaypointIdx + 3) :
    none ∈ windowReadsX wps closestWaypointIdx := by
  have h2 : wps[closestWaypointIdx + 2]? = (none : Option (ℝ × ℝ)) :=
    List.getElem?_eq_none (by omega)
  simp [windowReadsX, windowIdxs, h2]

/-- Witness for C2: a two-waypoint list with nearest index 1. -/
theorem C2_window_reads_past_end_witness :
    none ∈ windowReadsX [((0 : ℝ), (0 : ℝ)), (1, 1)] 1 :=
  C2_window_reads_past_end [((0 : ℝ), (0 : ℝ)), (1, 1)] 1 (by simp) (by simp)

/-- C3: for the three-point window `calculate` actually builds, the
local-point buffers produced by the frame transformation have length 3,
yet the Eigen views handed to the fit read `eigenMapLen = 6` entries, so
the fit reads past the end of the buffers (a `none` among its reads);
moreover the true sample count 3 does not strictly exceed the polynomial
degree 3, so the fit precondition fails at the call site. -/
theorem C3_fit_reads_past_buffer (px py psi : ℝ) (pts : List (ℝ × ℝ))
    (h : pts.length = 3) :
    (transformPoints px py psi pts).length = 3 ∧
    none ∈ eigenMapReads ((transformPoints px py psi pts).map Prod.fst) ∧
    ¬ ((transformPoints px py psi pts).length > polyfitOrder) := by
  have hl : (transformPoints px py psi pts).length = 3 := by
    simp [transformPoints, h]
  refine ⟨hl, ?_, by simp [hl, polyfitOrder]⟩
  have h3 : ((transformPoints px py psi pts).map Prod.fst).get? 3 = none := by
    rw [List.get?_eq_none]
    simp [hl]
  exact List.mem_map.mpr ⟨3, by decide, h3⟩

/-- Witness for C3 at a concrete three-point window. -/
theorem C3_fit_reads_past_buffer_witness :
    (transformPoints 0 0 0 [((0 : ℝ), (0 : ℝ)), (1, 0), (2, 0)]).length = 3 ∧
    none ∈ eigenMapReads
      ((transformPoints 0 0 0 [((0 : ℝ), (0 : ℝ)), (1, 0), (2, 0)]).map Prod.fst) ∧
    ¬ ((transformPoints 0 0 0 [((0 : ℝ), (0 : ℝ)), (1, 0), (2, 0)]).length > polyfitOrder) :=
  C3_fit_reads_past_buffer 0 0 0 [((0 : ℝ), (0 : ℝ)), (1, 0), (2, 0)] (by simp)

/-- C5: the constructor determines only the enable flag; there is a
possible process-start state (an instantiation of the uninitialized
members) in which all three message readiness flags already read true,
so that a single enable message makes the readiness guard pass with no
waypoint, pose or velocity message ever received. -/
theorem C5_flags_indeterminate_at_start :
    ∃ s0 : DbwState,
      (∃ w v p wps po vel sv tv, s0 = initDbw w v p wps po vel sv tv) ∧
      s0.enabled = false ∧
      s0.waypoint_set = true ∧ s0.pose_set = true ∧ s0.velocity_set = true ∧
      isActive (onEnabled s0 true) = true :=
  ⟨initDbw true true true [] ⟨0, 0, 0⟩ 0 0 0,
   ⟨true, true, true, [], ⟨0, 0, 0⟩, 0, 0, 0, rfl⟩,
   rfl, rfl, rfl, rfl, rfl⟩
